import Mathlib

/-!
Shallow embedding of `src/main.go` (package main): a single-fetch HTTP(S)
client whose dialer consults a context-carried address override while TLS
verification stays anchored to the URL's host.
-/

namespace GoFetch

/-- A parsed URL as the program consumes it: `parsedURL.Scheme`,
`parsedURL.Hostname()` and `parsedURL.Port()` (empty when no explicit port).
URL-string parsing itself is out of scope per the spec. -/
structure URL where
  scheme : String
  host : String
  port : String
  deriving DecidableEq, Repr

/-- `strings.ToLower`, modelled as lower-casing each character of the string
(ASCII case folding, which covers the scheme strings at issue). -/
def lowerString (s : String) : String := ⟨s.data.map Char.toLower⟩

/-- `net.JoinHostPort` from the Go standard library: joins host and port with
a colon, bracketing the host when it itself contains a colon. -/
def joinHostPort (host port : String) : String :=
  if host.data.contains ':' then "[" ++ host ++ "]:" ++ port
  else host ++ ":" ++ port

/-- `pickPort` (src/main.go lines 114-128): explicit URL port wins; otherwise
the lower-cased scheme selects `443` for https and `80` for http; any other
scheme is fatal (`log.Fatalf`), modelled as `none`. The Go `switch` on
`strings.ToLower(parsedURL.Scheme)` is rendered as an equality chain. -/
def pickPort (u : URL) : Option String :=
  if u.port ≠ "" then some u.port
  else if lowerString u.scheme = "https" then some "443"
  else if lowerString u.scheme = "http" then some "80"
  else none

/-- A Go `context.Context` restricted to what the program uses: the background
context and `context.WithValue` chains. Keys are drawn from `Nat`; the program
uses the single key `dialOverrideKey`. -/
inductive Ctx where
  | background : Ctx
  | withValue : Ctx → Nat → String → Ctx
  deriving DecidableEq, Repr

/-- `ctx.Value(key)`: nearest enclosing `WithValue` for the key wins. -/
def Ctx.value : Ctx → Nat → Option String
  | .background, _ => none
  | .withValue parent k v, key => if k = key then some v else parent.value key

/-- The program's `dialOverrideKey struct{}` (src/main.go line 29). -/
def dialOverrideKey : Nat := 0

/-- `withDialOverride` (src/main.go lines 31-33). -/
def withDialOverride (ctx : Ctx) (addr : String) : Ctx :=
  ctx.withValue dialOverrideKey addr

/-- `dialOverrideFromContext` (src/main.go lines 35-38). -/
def dialOverrideFromContext (ctx : Ctx) : Option String :=
  ctx.value dialOverrideKey

/-- `net.Dialer` restricted to the one field the program sets. -/
structure Dialer where
  timeoutMs : Nat
  deriving DecidableEq, Repr

/-- `defaultDialer = &net.Dialer{Timeout: 500 * time.Millisecond}`
(src/main.go line 41). -/
def defaultDialer : Dialer := { timeoutMs := 500 }

/-- Outcome of a single dial attempt. -/
inductive DialResult where
  | conn (addr : String)
  | timeout
  deriving DecidableEq, Repr

/-- `net.Dialer.DialContext` as documented by the standard library: with
`Timeout` set, connection establishment taking longer than the timeout fails
with a timeout error; otherwise a connection to `addr` results. The time the
network would need is the explicit `latencyMs` parameter. -/
def Dialer.dialContext (d : Dialer) (latencyMs : Nat) (addr : String) : DialResult :=
  if latencyMs > d.timeoutMs then .timeout else .conn addr

/-- The address actually dialed by `sharedTransport.DialContext`
(src/main.go lines 44-49): the context override, when present, replaces the
logical address `addr`; otherwise `addr` is dialed unchanged. -/
def dialTarget (ctx : Ctx) (addr : String) : String :=
  match dialOverrideFromContext ctx with
  | some override => override
  | none => addr

/-- `sharedTransport.DialContext` (src/main.go lines 44-49): consult the
override, then dial through `defaultDialer`. -/
def sharedTransportDial (ctx : Ctx) (latencyMs : Nat) (addr : String) : DialResult :=
  defaultDialer.dialContext latencyMs (dialTarget ctx addr)

/-- The `http.Transport` fields the program touches: `ForceAttemptHTTP2` and
(never set, hence `none`) `TLSClientConfig`, modelled as an optional
`ServerName` override for hostname verification. -/
structure TransportConfig where
  forceAttemptHTTP2 : Bool
  tlsClientConfig : Option String
  deriving DecidableEq, Repr

/-- `sharedTransport` configuration (src/main.go lines 42-50): HTTP/2 forced,
TLS client configuration left untouched. -/
def sharedTransportConfig : TransportConfig :=
  { forceAttemptHTTP2 := true, tlsClientConfig := none }

/-- An `http.Request` restricted to what the program builds: method, URL and
the attached context (`http.NewRequest` yields `context.Background()`). -/
structure Request where
  method : String
  url : URL
  ctx : Ctx
  deriving DecidableEq, Repr

/-- As documented for `net/http` / `crypto/tls`: when `TLSClientConfig` does
not set a `ServerName`, the hostname-verification target is the request URL's
hostname. -/
def tlsServerName (cfg : TransportConfig) (req : Request) : String :=
  match cfg.tlsClientConfig with
  | some name => name
  | none => req.url.host

/-- The TLS handshake succeeds exactly when the certificate presented by the
dialed server is valid for the verification target. `certHosts` lists the
hostnames the certificate is valid for. -/
def tlsHandshakeOK (cfg : TransportConfig) (req : Request) (certHosts : List String) : Bool :=
  certHosts.contains (tlsServerName cfg req)

/-- Fatal error classes of `main` before/at request dispatch. -/
inductive FatalError where
  | missingHost
  | unknownScheme
  deriving DecidableEq, Repr

/-- The data `main` has computed just before `RoundTrip`. -/
structure Prepared where
  port : String
  dialAddr : String
  req : Request
  deriving DecidableEq, Repr

/-- `main`, lines 70-89: check the host, resolve the port via `pickPort`,
compute `dialAddr = net.JoinHostPort(dialHost, port)` where `dialHost` is the
override `ip` when non-empty and the URL host otherwise, build the GET
request, and attach the override to the request context only when `ip` is
non-empty. -/
def prepare (u : URL) (ip : String) : Except FatalError Prepared :=
  if u.host = "" then .error .missingHost
  else
    match pickPort u with
    | none => .error .unknownScheme
    | some port =>
      let dialHost := if ip ≠ "" then ip else u.host
      let dialAddr := joinHostPort dialHost port
      let req : Request :=
        { method := "GET", url := u,
          ctx := if ip ≠ "" then withDialOverride Ctx.background dialAddr
                 else Ctx.background }
      .ok { port := port, dialAddr := dialAddr, req := req }

/-- Outcome of one whole fetch. -/
inductive FetchOutcome where
  | ok (status : Nat)
  | tlsError
  | dialTimeout
  | fatal (e : FatalError)
  deriving DecidableEq, Repr

/-- One fetch end to end: prepare, dial through the shared transport with the
request's context (the logical address the transport derives is the URL host
joined with the resolved port), then, for https, perform hostname
verification against the certificate of whatever server answered at the
dialed address. `latencyMs` is the network's connection-establishment time,
`certHosts` the hostnames that server's certificate is valid for, and
`status` the status the server would return on success. -/
def fetch (u : URL) (ip : String) (certHosts : List String)
    (latencyMs : Nat) (status : Nat) : FetchOutcome :=
  match prepare u ip with
  | .error e => .fatal e
  | .ok p =>
    let logicalAddr := joinHostPort u.host p.port
    match sharedTransportDial p.req.ctx latencyMs logicalAddr with
    | .timeout => .dialTimeout
    | .conn _ =>
      if lowerString u.scheme = "https" then
        if tlsHandshakeOK sharedTransportConfig p.req certHosts then .ok status
        else .tlsError
      else .ok status

/-- What `main` releases after a response was obtained (lines 91-101).
`resp.Body.Close()` and `sharedTransport.CloseIdleConnections()` are
registered with `defer`; `log.Fatalf` calls `os.Exit(1)`, which terminates
the process without running deferred calls. -/
structure Cleanup where
  bodyClosed : Bool
  idleClosed : Bool
  exitCode : Nat
  deriving DecidableEq, Repr

/-- `main` after a successful `RoundTrip` (src/main.go lines 95-112):
the two `defer`s are registered, then `io.ReadAll(resp.Body)` runs. On a read
error, `log.Fatalf` exits the process immediately — the deferred `Close` and
`CloseIdleConnections` do not run. On success the function returns normally
and both deferred calls run. -/
def afterResponse (readResult : Except String (List Nat)) : Cleanup :=
  match readResult with
  | .error _ => { bodyClosed := false, idleClosed := false, exitCode := 1 }
  | .ok _ => { bodyClosed := true, idleClosed := true, exitCode := 0 }

/-- Split a `host:port` string at its last colon, as `net.SplitHostPort`
does; a string without a colon is all host. -/
def splitAtLastColon (s : String) : String × String :=
  match s.data.reverse.span (fun c => c ≠ ':') with
  | (revPort, revRest) =>
    match revRest with
    | [] => (s, "")
    | _ :: revHost => (⟨revHost.reverse⟩, ⟨revPort.reverse⟩)

/-- The dialer algorithm as the specification words it (section 4.3):
substitute the override's host only, joined with the original port taken from
the logical address argument. Written from the spec's words, for comparison
with `dialTarget`. -/
def specDialTarget (ctx : Ctx) (addr : String) : String :=
  match dialOverrideFromContext ctx with
  | some override =>
      joinHostPort (splitAtLastColon override).1 (splitAtLastColon addr).2
  | none => addr

/-- Both dials of a two-request scenario sharing `sharedTransport`: each
request carries its own context. -/
def twoFetchDials (c1 c2 : Ctx) (lat1 lat2 : Nat) (addr1 addr2 : String) :
    DialResult × DialResult :=
  (sharedTransportDial c1 lat1 addr1, sharedTransportDial c2 lat2 addr2)

/-- `main` lines 54-64: with exactly two program arguments the override `ip`
stays the empty string; with three, it is the third argument; any other count
is a usage error (`none`). -/
def overrideArg (args : List String) : Option String :=
  match args with
  | [_, _] => some ""
  | [_, _, ip] => some ip
  | _ => none

/-! Helper lemmas about `prepare`. -/

theorem prepare_ok_inv (u : URL) (ip : String) (p : Prepared)
    (h : prepare u ip = .ok p) :
    u.host ≠ "" ∧ pickPort u = some p.port ∧
    p.dialAddr = joinHostPort (if ip ≠ "" then ip else u.host) p.port ∧
    p.req.method = "GET" ∧ p.req.url = u ∧
    p.req.ctx = (if ip ≠ "" then withDialOverride Ctx.background p.dialAddr
                 else Ctx.background) := by
  unfold prepare at h
  by_cases hh : u.host = ""
  · simp [hh] at h
  · rw [if_neg hh] at h
    cases hp : pickPort u with
    | none => rw [hp] at h; simp at h
    | some port =>
      rw [hp] at h
      simp only [Except.ok.injEq] at h
      subst h
      simp [hh, hp]

theorem prepare_eq_ok (u : URL) (ip port : String)
    (hh : u.host ≠ "") (hp : pickPort u = some port) :
    prepare u ip = .ok
      { port := port,
        dialAddr := joinHostPort (if ip ≠ "" then ip else u.host) port,
        req := { method := "GET", url := u,
                 ctx := if ip ≠ "" then
                     withDialOverride Ctx.background
                       (joinHostPort (if ip ≠ "" then ip else u.host) port)
                   else Ctx.background } } := by
  unfold prepare
  simp [hh, hp]

/-! Claim theorems. -/

/-- C4: port resolution — an explicit URL port wins regardless of scheme;
with no explicit port, scheme http resolves to 80 and https to 443 (via the
lower-cased scheme); any other scheme with no explicit port is the fatal
UnknownScheme outcome; and every non-fatally resolved port is non-empty. -/
theorem pickPort_resolution (u : URL) :
    (u.port ≠ "" → pickPort u = some u.port) ∧
    (u.port = "" → lowerString u.scheme = "http" → pickPort u = some "80") ∧
    (u.port = "" → lowerString u.scheme = "https" → pickPort u = some "443") ∧
    (u.port = "" → lowerString u.scheme ≠ "http" → lowerString u.scheme ≠ "https"
      → pickPort u = none) ∧
    (∀ q, pickPort u = some q → q ≠ "") := by
  unfold pickPort
  by_cases hp : u.port = "" <;>
    by_cases h1 : lowerString u.scheme = "https" <;>
      by_cases h2 : lowerString u.scheme = "http" <;>
        simp_all

/-- C4 witness: `https://example.com:8443/` keeps its explicit port. -/
theorem pickPort_resolution_witness :
    pickPort ⟨"https", "example.com", "8443"⟩ = some "8443" :=
  (pickPort_resolution ⟨"https", "example.com", "8443"⟩).1 (by decide)

/-- C10: scheme matching during port resolution is case-insensitive — two
URLs that differ only in the capitalization of the scheme resolve to the same
port. -/
theorem pickPort_scheme_case_insensitive (s1 s2 host q : String)
    (h : lowerString s1 = lowerString s2) :
    pickPort ⟨s1, host, q⟩ = pickPort ⟨s2, host, q⟩ := by
  simp [pickPort, h]

/-- C10 witness: `HTTPS` resolves like `https`, to port 443. -/
theorem pickPort_scheme_case_insensitive_witness :
    pickPort ⟨"HTTPS", "example.com", ""⟩ = pickPort ⟨"https", "example.com", ""⟩
      ∧ pickPort ⟨"https", "example.com", ""⟩ = some "443" :=
  ⟨pickPort_scheme_case_insensitive "HTTPS" "https" "example.com" "" (by decide),
   by decide⟩

/-- C1: the DialAddress is a function of Target and override — with a
non-empty override `ip` it is `ip` joined with the Target's resolved port
(the port comes from `pickPort`, never from the override string); with no
override it is the Target's host joined with that port. -/
theorem dialAddress_correct (u : URL) (ip : String) (p : Prepared)
    (h : prepare u ip = .ok p) :
    pickPort u = some p.port ∧
    (ip ≠ "" → p.dialAddr = joinHostPort ip p.port) ∧
    (ip = "" → p.dialAddr = joinHostPort u.host p.port) := by
  obtain ⟨hh, hp, hd, _, _, _⟩ := prepare_ok_inv u ip p h
  refine ⟨hp, ?_, ?_⟩ <;> intro hip <;> simp [hip] at hd <;> exact hd

/-- C1 witness: `https://example.com/` with override `203.0.113.10` resolves
port 443 and dials `203.0.113.10:443`. -/
theorem dialAddress_correct_witness :
    pickPort ⟨"https", "example.com", ""⟩ = some "443" ∧
    ("203.0.113.10:443" : String) = joinHostPort "203.0.113.10" "443" := by
  have h := dialAddress_correct ⟨"https", "example.com", ""⟩ "203.0.113.10"
      ⟨"443", "203.0.113.10:443",
        ⟨"GET", ⟨"https", "example.com", ""⟩,
          withDialOverride Ctx.background "203.0.113.10:443"⟩⟩ rfl
  exact ⟨h.1, (h.2.1 (by decide)).symm ▸ rfl⟩

/-- C9: supplying the empty string as override behaves like supplying no
override — the command line maps both to the same `ip` value, nothing is
attached to the request context (reads report absence), and the dial address
is the Target's own host joined with its port. -/
theorem empty_override_noop (u : URL) (prog urlArg : String) (p : Prepared)
    (h : prepare u "" = .ok p) :
    overrideArg [prog, urlArg, ""] = overrideArg [prog, urlArg] ∧
    p.req.ctx = Ctx.background ∧
    dialOverrideFromContext p.req.ctx = none ∧
    p.dialAddr = joinHostPort u.host p.port := by
  obtain ⟨hh, hp, hd, _, _, hctx⟩ := prepare_ok_inv u "" p h
  simp only [ne_eq, not_true_eq_false, if_false, reduceIte] at hd hctx
  refine ⟨rfl, hctx, ?_, hd⟩
  rw [hctx]
  rfl

/-- C9 witness: `https://example.com/` with the empty override. -/
theorem empty_override_noop_witness :
    dialOverrideFromContext Ctx.background = none ∧
    ("example.com:443" : String) = joinHostPort "example.com" "443" := by
  have h := empty_override_noop ⟨"https", "example.com", ""⟩ "prog"
      "https://example.com/"
      ⟨"443", "example.com:443",
        ⟨"GET", ⟨"https", "example.com", ""⟩, Ctx.background⟩⟩ rfl
  exact ⟨h.2.1 ▸ h.2.2.1, h.2.2.2.symm ▸ rfl⟩

/-- C7: the request's declared method and URL are identical whether or not an
override is supplied (also on the error paths); the override changes only the
context consulted at dial time, and `Request` has no field beyond method, URL
and context. -/
theorem override_frame_effect (u : URL) (ip : String) :
    (prepare u ip).map (fun p => (p.req.method, p.req.url)) =
      (prepare u "").map (fun p => (p.req.method, p.req.url)) := by
  unfold prepare
  by_cases hh : u.host = ""
  · simp [hh]
  · rw [if_neg hh, if_neg hh]
    cases hp : pickPort u <;> simp [Except.map]

/-- C6: every dial, with or without override, goes through `defaultDialer`,
whose connection-establishment timeout is 500 ms; a dial whose establishment
would take longer than the bound fails with a timeout instead of hanging. -/
theorem dial_timeout_bound (ctx : Ctx) (addr : String) (lat : Nat)
    (h : 500 < lat) :
    defaultDialer.timeoutMs = 500 ∧
    sharedTransportDial ctx lat addr
      = defaultDialer.dialContext lat (dialTarget ctx addr) ∧
    sharedTransportDial ctx lat addr = .timeout := by
  refine ⟨rfl, rfl, ?_⟩
  unfold sharedTransportDial Dialer.dialContext defaultDialer
  simp [h]

/-- C6 witness: a dial needing 501 ms times out. -/
theorem dial_timeout_bound_witness :
    sharedTransportDial Ctx.background 501 "example.com:443"
      = DialResult.timeout :=
  (dial_timeout_bound Ctx.background "example.com:443" 501 (by decide)).2.2

/-- C8: two-run non-interference — with two requests sharing the transport,
attaching an override to the first request's scope leaves the second
request's dial unchanged; the attached scope reads back its own value; the
untouched background scope reads absence. -/
theorem override_non_interference (c1 c2 : Ctx) (a : String)
    (lat1 lat2 : Nat) (addr1 addr2 : String) :
    (twoFetchDials (withDialOverride c1 a) c2 lat1 lat2 addr1 addr2).2
      = (twoFetchDials c1 c2 lat1 lat2 addr1 addr2).2 ∧
    dialOverrideFromContext (withDialOverride c1 a) = some a ∧
    dialOverrideFromContext Ctx.background = none := by
  refine ⟨rfl, ?_, rfl⟩
  simp [dialOverrideFromContext, withDialOverride, Ctx.value]

/-- C2: with an override in effect the request's URL (hence its Host header
host) stays the original URL, the transport's TLS client configuration is
never set, so the hostname-verification target is the original host; a fetch
whose override reaches a server whose certificate is not valid for the
Target's host ends in a TLS validation error, not success. -/
theorem tls_identity_preserved (u : URL) (ip : String) (p : Prepared)
    (certHosts : List String) (lat st : Nat)
    (hp : prepare u ip = .ok p)
    (hscheme : lowerString u.scheme = "https")
    (hcert : certHosts.contains u.host = false)
    (hlat : lat ≤ 500) :
    p.req.url = u ∧
    sharedTransportConfig.tlsClientConfig = none ∧
    tlsServerName sharedTransportConfig p.req = u.host ∧
    fetch u ip certHosts lat st = .tlsError := by
  obtain ⟨hh, hpick, hd, hm, hu, hctx⟩ := prepare_ok_inv u ip p hp
  have hsn : tlsServerName sharedTransportConfig p.req = u.host := by
    simp [tlsServerName, sharedTransportConfig, hu]
  refine ⟨hu, rfl, hsn, ?_⟩
  have hnt : ¬ (500 < lat) := by omega
  unfold fetch
  rw [hp]
  simp [sharedTransportDial, Dialer.dialContext, defaultDialer, hnt, hscheme,
    tlsHandshakeOK, hsn, hcert]
  simpa using hcert

/-- C2 witness: `https://example.com/` with override `203.0.113.10` reaching
a server whose certificate is only valid for `other.example` fails with a
TLS validation error. -/
theorem tls_identity_preserved_witness :
    fetch ⟨"https", "example.com", ""⟩ "203.0.113.10" ["other.example"] 10 200
      = FetchOutcome.tlsError :=
  (tls_identity_preserved ⟨"https", "example.com", ""⟩ "203.0.113.10"
      ⟨"443", "203.0.113.10:443",
        ⟨"GET", ⟨"https", "example.com", ""⟩,
          withDialOverride Ctx.background "203.0.113.10:443"⟩⟩
      ["other.example"] 10 200 rfl rfl (by decide) (by decide)).2.2.2

/-- C3 counterexample: the dialer substitutes the carried override value
wholesale. Given a scope carrying `203.0.113.10:9999` and logical address
`example.com:443`, the code dials `203.0.113.10:9999` — keeping the port the
override carried — whereas the claimed algorithm (override's host joined with
the original port of the logical address, `specDialTarget`) would dial
`203.0.113.10:443`. -/
theorem dialer_substitutes_wholesale :
    dialTarget (withDialOverride Ctx.background "203.0.113.10:9999")
        "example.com:443" = "203.0.113.10:9999" ∧
    specDialTarget (withDialOverride Ctx.background "203.0.113.10:9999")
        "example.com:443" = "203.0.113.10:443" ∧
    ("203.0.113.10:9999" : String) ≠ "203.0.113.10:443" :=
  ⟨rfl, by decide, by decide⟩

/-- C3 amended: the dialer reads the Override Carrier for the request's
scope; when an override is present the carried value is used verbatim as the
dial target (replacing the logical address wholesale, port included); since
the Fetch Executor attaches the override host joined with the Target's
resolved port, the resulting dial target is the override host joined with the
Target's port, independent of the logical address argument; when absent, the
logical address is dialed unchanged. -/
theorem dialer_override_algorithm (u : URL) (ip : String) (p : Prepared)
    (h : prepare u ip = .ok p) (addr : String) :
    dialTarget p.req.ctx addr
      = (if ip ≠ "" then joinHostPort ip p.port else addr) ∧
    dialTarget Ctx.background addr = addr := by
  obtain ⟨hh, hpick, hd, hm, hu, hctx⟩ := prepare_ok_inv u ip p h
  refine ⟨?_, rfl⟩
  by_cases hip : ip = ""
  · simp only [hip, ne_eq, not_true_eq_false, if_false, reduceIte] at hctx ⊢
    rw [hctx]
    rfl
  · simp only [hip, ne_eq, not_false_eq_true, if_true, reduceIte] at hctx hd ⊢
    rw [hctx]
    exact hd

/-- C3 amended witness: `https://example.com:8443/` with override
`203.0.113.10` dials `203.0.113.10:8443` whatever the logical address. -/
theorem dialer_override_algorithm_witness :
    dialTarget (withDialOverride Ctx.background "203.0.113.10:8443")
        "example.com:8443" = joinHostPort "203.0.113.10" "8443" := by
  have h := dialer_override_algorithm ⟨"https", "example.com", "8443"⟩
      "203.0.113.10"
      ⟨"8443", "203.0.113.10:8443",
        ⟨"GET", ⟨"https", "example.com", "8443"⟩,
          withDialOverride Ctx.background "203.0.113.10:8443"⟩⟩ rfl
      "example.com:8443"
  simpa using h.1

/-- C5: on the body-read failure path `log.Fatalf` exits the process without
running the deferred `resp.Body.Close()` and `CloseIdleConnections()`, so the
per-fetch resources are not released there — unlike on the success path,
where both deferred releases run. -/
theorem read_failure_skips_cleanup :
    (afterResponse (.error "connection reset")).bodyClosed = false ∧
    (afterResponse (.error "connection reset")).idleClosed = false ∧
    (afterResponse (.ok [])).bodyClosed = true ∧
    (afterResponse (.ok [])).idleClosed = true :=
  ⟨rfl, rfl, rfl, rfl⟩

end GoFetch
